import Mathlib

/-
Verification development for the GmailTrashCleaner repository, centered on the
label-based archival engine in src/gmail_label_archiver.py.

The embedding models a Gmail-style account: every message lives in the archive
folder (All Mail) and carries a set of Gmail labels; membership in the inbox
view is exactly the presence of the special label written \Inbox.  A message
has a separate local identifier in each of the two views (inboxUid and
allMailUid) and an optional stable Message-ID header.  The IMAP commands the
source issues (STORE -X-GM-LABELS, STORE +FLAGS \Seen, UID MOVE, UID SEARCH
X-GM-RAW) are modeled as pure functions on this account state; a UID STORE
command resolves its UID in the uid space of the folder that the session has
currently selected, as IMAP prescribes.  Server status responses and
exceptions are injected through small environment records, one per attempt.
-/

namespace LabelArchiver

/-- The Gmail label whose presence marks membership in the inbox view. -/
def inboxLabel : String := "\\Inbox"

/-- One message of the account, as the archival engine sees it: the local
identifier of the message in the inbox view, its local identifier in the
All Mail view, the optional Message-ID header, the Gmail label list and the
read flag.  A message is in the inbox view exactly when `inboxLabel` is among
its labels. -/
structure GMsg where
  inboxUid : Nat
  allMailUid : Nat
  msgid : Option String
  labels : List String
  seen : Bool
deriving DecidableEq, Repr

/-- The whole remote account state: its list of messages (the All Mail view). -/
abbrev ServerState : Type := List GMsg

/-- UID FETCH in the selected INBOX (source line 263): resolve an inbox-view
local identifier; succeeds only while the message is still in the inbox. -/
def findInbox (s : ServerState) (uid : Nat) : Option GMsg :=
  s.find? (fun g => g.inboxUid == uid && g.labels.contains inboxLabel)

/-- UID SEARCH X-GM-RAW "rfc822msgid:m" with All Mail selected (source
line 280): every message with that Message-ID, in server order, as All Mail
local identifiers. -/
def allMailSearchMsgid (s : ServerState) (m : String) : List Nat :=
  (s.filter (fun g => g.msgid == some m)).map (fun g => g.allMailUid)

/-- UID SEARCH X-GM-RAW "in:inbox rfc822msgid:m" (source line 299): is some
message with that Message-ID still present in the inbox view. -/
def inboxHasMsgid (s : ServerState) (m : String) : Bool :=
  s.any (fun g => g.msgid == some m && g.labels.contains inboxLabel)

/-- Remove the inbox-presence label from the label list of a message; all
other labels are kept.  This is the per-message effect of both
STORE -X-GM-LABELS (\Inbox) and of a move out of the inbox. -/
def labelKeep (g : GMsg) : GMsg :=
  { g with labels := g.labels.filter (fun x => x != inboxLabel) }

/-- UID STORE u -X-GM-LABELS (\Inbox) with All Mail selected (source
line 291): the UID resolves in the All Mail uid space. -/
def storeRemoveInboxAll (s : ServerState) (u : Nat) : ServerState :=
  s.map (fun g => if g.allMailUid == u then labelKeep g else g)

/-- UID STORE u +FLAGS (\Seen) with All Mail selected (source line 295). -/
def storeSeenAllMail (s : ServerState) (u : Nat) : ServerState :=
  s.map (fun g => if g.allMailUid == u then { g with seen := true } else g)

/-- UID STORE u +FLAGS (\Seen) with INBOX selected (source line 311): the UID
resolves in the inbox uid space, so it can only reach a message that is still
present in the inbox view. -/
def storeSeenInboxSpace (s : ServerState) (u : Nat) : ServerState :=
  s.map (fun g => if g.inboxUid == u && g.labels.contains inboxLabel
    then { g with seen := true } else g)

/-- UID MOVE u all_mail_folder with INBOX selected (source line 308): the
message leaves the inbox view; in the Gmail model that is the removal of the
inbox-presence label, every other label is kept. -/
def moveFromInbox (s : ServerState) (u : Nat) : ServerState :=
  s.map (fun g => if g.inboxUid == u && g.labels.contains inboxLabel
    then labelKeep g else g)

/-- The X-GM-RAW payload of the candidate query (source line 368). -/
def candidateQuery (label_name : String) : String :=
  "\"label:" ++ label_name ++ " in:inbox\""

/-- The X-GM-RAW payload of the All Mail resolution query (source line 280). -/
def archiveQuery (msgid : String) : String :=
  "\"rfc822msgid:" ++ msgid ++ "\""

/-- The X-GM-RAW payload of the post-mutation verification query (source
line 299). -/
def verifyQuery (msgid : String) : String :=
  "\"in:inbox rfc822msgid:" ++ msgid ++ "\""

/-- Externally visible effects of one run of process_single_message, in
order: session opened, the courtesy time.sleep(0.1) of source line 255, an
X-GM-RAW search with its payload, the backoff time.sleep(2 ** attempt) of
source line 331, session logout. -/
inductive Effect where
  | connect
  | sleepCourtesy
  | search (q : String)
  | backoff (secs : Nat)
  | logout
deriving DecidableEq, Repr

def isConnect : Effect → Bool
  | .connect => true
  | _ => false

def isLogout : Effect → Bool
  | .logout => true
  | _ => false

def isBackoff : Effect → Bool
  | .backoff _ => true
  | _ => false

/-- Outcome of the connection phase of one attempt (source lines 251-252):
the SSL constructor itself raises, the login raises after the SSL object was
assigned, or both succeed. -/
inductive ConnResult where
  | sslFail
  | loginFail
  | ok
deriving DecidableEq, Repr

/-- Injected server behavior for one attempt of process_single_message: how
the connection phase ends, whether an exception is raised right after the
connection, the status of each status-checked command, whether the
verification search is served from a stale index (archive-index lag: it then
reports the state as it was before this attempt mutated it), and the status
of the fallback UID MOVE. -/
structure AttemptEnv where
  conn : ConnResult
  raiseEarly : Bool
  selectInboxOk : Bool
  fetchOk : Bool
  selectArchiveOk : Bool
  searchOk : Bool
  tagRemoveOk : Bool
  verifyStale : Bool
  moveOk : Bool
deriving DecidableEq, Repr

/-- How one iteration of the retry loop of process_single_message ends, with
the Python control flow made explicit: `ret b` is a return statement, `cont`
is a continue statement (which, in Python, skips everything after the
try/except/finally, including the backoff sleep of source lines 329-331),
and `fallthrough` would be the try statement completing normally so that the
trailing backoff code runs. -/
inductive AttemptExit where
  | ret (b : Bool)
  | cont
  | fallthrough
deriving DecidableEq, Repr

/-- Result of one iteration of the retry loop: how it exited, the server
state it left behind, its effect trace, and whether the fallback UID MOVE
branch of source lines 305-312 was entered. -/
structure AttemptOut where
  exit : AttemptExit
  state : ServerState
  trace : List Effect
  usedFallback : Bool
deriving Repr

/-- Server state after the canonical mutation pair of source lines 290-295:
when the STORE -X-GM-LABELS status was OK, the inbox label was removed at the
All Mail UID and the message was marked read there; on a failed status the
code checks nothing further and the state is unchanged. -/
def postStoreState (s : ServerState) (tro : Bool) (u : Nat) : ServerState :=
  if tro then storeSeenAllMail (storeRemoveInboxAll s u) u else s

/-- What the verification search of source line 299 reports: with a fresh
index, presence of the Message-ID in the inbox view of the post-mutation
state; with a stale index, presence in the pre-mutation state. -/
def verifyReported (s : ServerState) (tro stale : Bool) (m : String) (u : Nat) : Bool :=
  if stale then inboxHasMsgid s m else inboxHasMsgid (postStoreState s tro u) m

/-- One iteration of the retry loop of process_single_message (source lines
248-327), status for status and mutation for mutation:
connect and login (251-252), courtesy sleep (255), select INBOX (258-260),
UID FETCH of the Message-ID header (263-272), select All Mail (275-278),
UID SEARCH by Message-ID and first-match tie-break (280-288), canonical
STORE -X-GM-LABELS (\Inbox) plus mark-read (290-295), verification search in
the inbox view (297-304), and the fallback UID MOVE with its mark-read at
the old All Mail UID while INBOX is selected (305-312).  Every failing check
is a continue; the only returns are return True; the finally block (322-327)
closes the session whenever the SSL object was assigned. -/
def attemptBody (e : AttemptEnv) (inbox_uid : Nat) (all_mail_folder : String)
    (s : ServerState) : AttemptOut :=
  match e.conn with
  | .sslFail => ⟨.cont, s, [], false⟩
  | .loginFail => ⟨.cont, s, [.connect, .logout], false⟩
  | .ok =>
    if e.raiseEarly then ⟨.cont, s, [.connect, .logout], false⟩ else
    if !e.selectInboxOk then
      ⟨.cont, s, [.connect, .sleepCourtesy, .logout], false⟩ else
    if !e.fetchOk then
      ⟨.cont, s, [.connect, .sleepCourtesy, .logout], false⟩ else
    match findInbox s inbox_uid with
    | none => ⟨.cont, s, [.connect, .sleepCourtesy, .logout], false⟩
    | some g =>
      match g.msgid with
      | none => ⟨.cont, s, [.connect, .sleepCourtesy, .logout], false⟩
      | some msgid =>
        if !e.selectArchiveOk then
          ⟨.cont, s, [.connect, .sleepCourtesy, .logout], false⟩ else
        if !e.searchOk then
          ⟨.cont, s,
            [.connect, .sleepCourtesy, .search (archiveQuery msgid), .logout],
            false⟩ else
        match allMailSearchMsgid s msgid with
        | [] => ⟨.cont, s,
            [.connect, .sleepCourtesy, .search (archiveQuery msgid), .logout],
            false⟩
        | all_mail_uid :: _ =>
          if !(verifyReported s e.tagRemoveOk e.verifyStale msgid all_mail_uid) then
            ⟨.ret true, postStoreState s e.tagRemoveOk all_mail_uid,
              [.connect, .sleepCourtesy, .search (archiveQuery msgid),
               .search (verifyQuery msgid), .logout], false⟩
          else if e.moveOk then
            ⟨.ret true,
              storeSeenInboxSpace
                (moveFromInbox (postStoreState s e.tagRemoveOk all_mail_uid)
                  inbox_uid) all_mail_uid,
              [.connect, .sleepCourtesy, .search (archiveQuery msgid),
               .search (verifyQuery msgid), .logout], true⟩
          else
            ⟨.cont, postStoreState s e.tagRemoveOk all_mail_uid,
              [.connect, .sleepCourtesy, .search (archiveQuery msgid),
               .search (verifyQuery msgid), .logout], true⟩

/-- Result of a full run of process_single_message: the returned Bool, the
final server state, the effect trace, the number of loop iterations that ran,
and whether the iteration that returned had entered the fallback branch. -/
structure RunOut where
  result : Bool
  state : ServerState
  trace : List Effect
  attempts : Nat
  usedFallback : Bool
deriving Repr

/-- The retry loop of process_single_message (source lines 247-333), with the
budget passed as fuel.  A `ret` exit returns from the function; a `cont` exit
moves to the next iteration directly, as a Python continue does; only a
`fallthrough` exit would reach the trailing backoff code of source lines
329-331, which sleeps 2 ** attempt when the attempt was not the last.
Exhausting the loop returns False (source line 333). -/
def runAttempts (envs : Nat → AttemptEnv) (inbox_uid : Nat)
    (all_mail_folder : String) :
    Nat → Nat → ServerState → List Effect → Nat → RunOut
  | 0, _, s, tr, n => ⟨false, s, tr, n, false⟩
  | fuel + 1, i, s, tr, n =>
    match attemptBody (envs i) inbox_uid all_mail_folder s with
    | ⟨.ret b, st, atr, ufb⟩ => ⟨b, st, tr ++ atr, n + 1, ufb⟩
    | ⟨.cont, st, atr, _⟩ =>
      runAttempts envs inbox_uid all_mail_folder fuel (i + 1) st
        (tr ++ atr) (n + 1)
    | ⟨.fallthrough, st, atr, _⟩ =>
      runAttempts envs inbox_uid all_mail_folder fuel (i + 1) st
        (if i < 3 - 1 then tr ++ atr ++ [Effect.backoff (2 ^ i)]
         else tr ++ atr) (n + 1)

/-- process_single_message (source lines 240-333).  The local constant
max_retries = 3 of source line 245 is the loop budget.  The email and
app_password arguments are consumed by the connection phase, whose outcome
the per-attempt environment injects; label_name is accepted and unused, as
in the source. -/
def process_single_message (envs : Nat → AttemptEnv) (inbox_uid : Nat)
    (label_name all_mail_folder : String) (email app_password : String)
    (s : ServerState) : RunOut :=
  runAttempts envs inbox_uid all_mail_folder 3 0 s [] 0

/-- The Archive Mutator sequence of source lines 290-304 on one All Mail
local identifier, under OK server statuses and a fresh verification index:
remove the inbox label at the UID, mark read there, then report success
exactly when the verification query finds no message with the Message-ID in
the inbox view. -/
def archiveMutator (s : ServerState) (m : String) (u : Nat) : Bool × ServerState :=
  let s2 := postStoreState s true u
  (!(inboxHasMsgid s2 m), s2)

/-- How one submitted worker task ends, seen from the collection loop of
source lines 390-399: future.result() returns a Bool, or raises. -/
inductive Outcome where
  | ok (b : Bool)
  | raises
deriving DecidableEq, Repr

def isArchivedOutcome : Outcome → Bool
  | .ok true => true
  | _ => false

/-- The collection loop of source lines 390-399: each completed future is
handled exactly once; a True result increments archived; a raised exception
is caught and logged (source lines 396-397) and increments nothing; the
progress bar update in the finally accounts for the message either way.
Completion order does not affect the two counts, so the fold is written in
list order.  Returns (messages accounted for, archived). -/
def runPool (beh : Nat → Outcome) : List Nat → Nat × Nat
  | [] => (0, 0)
  | u :: rest =>
    let r := runPool beh rest
    (r.1 + 1, if isArchivedOutcome (beh u) then r.2 + 1 else r.2)

/-- Configuration as _load_config builds it (source lines 66-93): email and
password from the file, batch_size defaulted to 25 and max_retries defaulted
to 3 by setdefault when the file does not set them. -/
structure Config where
  email : String
  password : String
  batch_size : Nat
  max_retries : Nat
deriving DecidableEq, Repr

def _load_config (rawBatch rawRetries : Option Nat)
    (email password : String) : Config :=
  { email := email, password := password,
    batch_size := rawBatch.getD 25, max_retries := rawRetries.getD 3 }

/-- The worker submission of source line 385: archive_messages_with_label
hands each worker only the inbox UID, the label, the All Mail folder name and
the two credential strings from the configuration; no other configuration key
reaches process_single_message. -/
def submit_process_single_message (cfg : Config) (envs : Nat → AttemptEnv)
    (inbox_uid : Nat) (label_name all_mail_folder : String)
    (s : ServerState) : RunOut :=
  process_single_message envs inbox_uid label_name all_mail_folder
    cfg.email cfg.password s

/-- The orchestrator object: its configuration and its shared connection
field self.imap (source lines 63-64), modeled as an abstract connection
identifier when connected. -/
structure Archiver where
  config : Config
  imap : Option Nat
deriving DecidableEq, Repr

/-- The parallel archival phase of archive_messages_with_label (source lines
378-401).  The phase body (source lines 380-399) names no attribute of self
other than the process_single_message method it submits, and
process_single_message (source lines 240-333) never reads or writes
self.imap: each worker opens, uses and closes only its own per-attempt
connection.  The phase therefore returns the orchestrator unchanged next to
the counts of the collection loop. -/
def parallelPhase (a : Archiver) (beh : Nat → Outcome) (uids : List Nat) :
    Archiver × (Nat × Nat) :=
  (a, runPool beh uids)

/-- Injected behavior for one sweep of archive_messages_with_label: whether
the INBOX select of source line 363 raises, its status when it does not,
whether the candidate search of source line 369 raises, whether an exception
escapes the worker loop after some number of messages were collected, and
whether an exception is raised after the loop completed. -/
structure SweepEnv where
  selectInboxRaises : Bool
  selectInboxOk : Bool
  searchRaises : Bool
  midLoopRaiseAfter : Option Nat
  postLoopRaises : Bool
deriving DecidableEq, Repr

/-- How one sweep ends, as the user observes it.  `noInbox` is the early
return of source lines 364-366, `noMessages` the early return of source
lines 370-372, `completed` the normal summary of source line 401,
`abortedReported` the handler of source lines 432-434 printing the count
accumulated so far, and `nameErrorCrash` is that same handler raising: when
the exception it catches was raised before source line 378 ran, the local
variable archived is still unbound, so the f-string of source line 434
raises NameError and no count is reported. -/
inductive SweepResult where
  | noInbox
  | noMessages
  | completed (archived : Nat)
  | abortedReported (archived : Nat)
  | nameErrorCrash
deriving DecidableEq, Repr

/-- archive_messages_with_label (source lines 335-434), reduced to its
control flow around the counters: select INBOX and search for candidates,
return early on a clean non-OK status or an empty candidate set, otherwise
set archived := 0 (source line 378), run the collection loop, and let the
except handler of source lines 432-434 report the accumulated count for any
exception raised after that assignment.  An exception raised by the select
or the search happens before archived is assigned, so the handler itself
fails with NameError. -/
def archive_messages_with_label (env : SweepEnv) (beh : Nat → Outcome)
    (uids : List Nat) : SweepResult :=
  if env.selectInboxRaises then .nameErrorCrash
  else if !env.selectInboxOk then .noInbox
  else if env.searchRaises then .nameErrorCrash
  else if uids.isEmpty then .noMessages
  else
    match env.midLoopRaiseAfter with
    | some j => .abortedReported (runPool beh (uids.take j)).2
    | none =>
      if env.postLoopRaises then .abortedReported (runPool beh uids).2
      else .completed (runPool beh uids).2

/-- Is the pattern list a leading segment of the other list. -/
def listIsPre : List Char → List Char → Bool
  | [], _ => true
  | _ :: _, [] => false
  | a :: as, b :: bs => a == b && listIsPre as bs

/-- Python substring containment, the `in` operator, on character lists. -/
def listHasSub (pat : List Char) : List Char → Bool
  | [] => pat.isEmpty
  | c :: rest => listIsPre pat (c :: rest) || listHasSub pat rest

/-- Python substring containment on strings. -/
def containsSub (hay pat : String) : Bool :=
  listHasSub pat.toList hay.toList

/-- Python str.split(sep) on character lists, non-overlapping left-to-right,
with fuel for termination (fuel = input length + 1 always suffices). -/
def splitListAux (sep : List Char) : Nat → List Char → List Char → List (List Char)
  | 0, acc, l => [acc.reverse ++ l]
  | _ + 1, acc, [] => [acc.reverse]
  | fuel + 1, acc, c :: rest =>
    if listIsPre sep (c :: rest) && !sep.isEmpty then
      acc.reverse :: splitListAux sep fuel [] ((c :: rest).drop sep.length)
    else
      splitListAux sep fuel (c :: acc) rest

/-- Python str.split(sep) on strings. -/
def splitOnSub (s sep : String) : List String :=
  (splitListAux sep.toList (s.toList.length + 1) [] s.toList).map
    (fun l => String.mk l)

/-- A character the source strips from folder names: double quote or space. -/
def isQS (c : Char) : Bool := c == '\"' || c == ' '

/-- Python str.strip of double quotes and spaces, as used at source
lines 158, 160, 187, 189. -/
def stripQS (s : String) : String :=
  String.mk (((s.toList.dropWhile isQS).reverse.dropWhile isQS).reverse)

/-- Last element of a list of strings with a default, for the Python
negative index split(...)[-1]. -/
def lastD (l : List String) (d : String) : String :=
  match l.reverse with
  | [] => d
  | x :: _ => x

/-- Python str.split() with no separator, modeled on the space character:
split on spaces and drop empty pieces. -/
def pySplitWs (s : String) : List String :=
  (splitOnSub s " ").filter (fun x => x != "")

/-- The three-character delimiter quote slash quote that the source looks
for inside a decoded LIST response line (source lines 186-189). -/
def delimiterMark : String := "\"/\""

/-- Folder name extraction of source lines 186-189: when the decoded line
contains the quote slash quote delimiter, take the last split piece, else the
last whitespace-separated word; in both cases strip quotes and spaces. -/
def extractFolderName (decoded : String) : String :=
  if containsSub decoded delimiterMark then
    stripQS (lastD (splitOnSub decoded delimiterMark) "")
  else
    stripQS (lastD (pySplitWs decoded) "")

/-- The substring test of source line 184 over the whole decoded LIST line:
one of the three known localized names of the All Mail folder occurs in it. -/
def matchesAllMail (decoded : String) : Bool :=
  containsSub decoded "All Mail" || containsSub decoded "Tous les messages" ||
    containsSub decoded "Todos los mensajes"

/-- find_all_mail_folder (source lines 164-197), given the decoded LIST
response lines or a listing failure: the first line in which one of the three
known names occurs yields the extracted folder name; no match, or any
exception from the listing, yields the hardcoded default. -/
def find_all_mail_folder (listing : Except Unit (List String)) : String :=
  match listing with
  | .error _ => "[Gmail]/All Mail"
  | .ok folders =>
    match folders.find? matchesAllMail with
    | some d => extractFolderName d
    | none => "[Gmail]/All Mail"

/-- The attribute flags of a decoded LIST response line: the
words beginning with a backslash inside its leading parenthesized attribute list.
This formalizes what the specification calls the provider-reported folder
attribute flag; the source never inspects it. -/
def folderAttrs (decoded : String) : List String :=
  if listIsPre "(".toList decoded.toList then
    pySplitWs (String.mk ((decoded.toList.drop 1).takeWhile (fun c => c != ')')))
  else []

/-! Concrete fixtures used by witnesses, counterexamples and code_bug
evaluations: one account with a single message that carries the
classification label Promo and sits in the inbox, and a few per-attempt
environments. -/

/-- A message in the inbox (inbox UID 5, All Mail UID 77), unread, carrying
the classification label Promo and the inbox-presence label. -/
def msgA : GMsg :=
  { inboxUid := 5, allMailUid := 77, msgid := some "m1",
    labels := ["\\Inbox", "Promo"], seen := false }

/-- An account holding just msgA. -/
def server0 : ServerState := [msgA]

/-- Environment family where every attempt is served normally except that the
STORE -X-GM-LABELS status is not OK, so the verification search still finds
the message in the inbox and the fallback UID MOVE (which succeeds) runs. -/
def env7fb : Nat → AttemptEnv := fun _ =>
  { conn := .ok, raiseEarly := false, selectInboxOk := true, fetchOk := true,
    selectArchiveOk := true, searchOk := true, tagRemoveOk := false,
    verifyStale := false, moveOk := true }

/-- Environment family where the INBOX select fails on every attempt, so
every attempt fails: the exhaustion scenario. -/
def envFail : Nat → AttemptEnv := fun _ =>
  { conn := .ok, raiseEarly := false, selectInboxOk := false, fetchOk := true,
    selectArchiveOk := true, searchOk := true, tagRemoveOk := true,
    verifyStale := false, moveOk := true }

/-- An attempt environment with every status OK and a fresh index, with the
three injection points of interest (tag removal status, index staleness,
move status) as parameters. -/
def mkEnv (tro vs mo : Bool) : AttemptEnv :=
  { conn := .ok, raiseEarly := false, selectInboxOk := true, fetchOk := true,
    selectArchiveOk := true, searchOk := true, tagRemoveOk := tro,
    verifyStale := vs, moveOk := mo }

/-- A worker behavior in which every message archives successfully. -/
def behAllOk : Nat → Outcome := fun _ => .ok true

/-- A decoded LIST line for a German-locale All Mail folder: it carries the
provider-reported \All attribute flag, but its name contains none of the
three substrings the source looks for. -/
def g6 : String := "(\\HasNoChildren \\All) \"/\" \"[Gmail]/Alle Nachrichten\""

/-! Claim theorems. -/

/-- The messages a worker archived and the messages it failed together
exhaust the candidate list. -/
lemma countP_split (p : Nat → Bool) (l : List Nat) :
    l.countP p + l.countP (fun u => !(p u)) = l.length := by
  induction l with
  | nil => simp
  | cons v tail ih =>
    cases hv : p v <;> simp [List.countP_cons, hv] <;> omega

/-- C4: over any candidate list and any per-message behavior, the collection
loop accounts for each submitted message exactly once (the accounted count
equals the candidate count even when some workers raise, so a raising worker
terminates neither the pool nor the accounting), the archived count is the
number of messages whose worker returned True, and with K the number of
messages that failed (returned False or raised) the archived count is N - K. -/
theorem c4_aggregate_accounting (beh : Nat → Outcome) (uids : List Nat) :
    (runPool beh uids).1 = uids.length ∧
    (runPool beh uids).2 = uids.countP (fun u => isArchivedOutcome (beh u)) ∧
    (runPool beh uids).2 =
      uids.length - uids.countP (fun u => !(isArchivedOutcome (beh u))) := by
  have main : (runPool beh uids).1 = uids.length ∧
      (runPool beh uids).2 = uids.countP (fun u => isArchivedOutcome (beh u)) := by
    induction uids with
    | nil => simp [runPool]
    | cons u rest ih =>
      obtain ⟨h1, h2⟩ := ih
      cases hu : isArchivedOutcome (beh u) <;>
        simp [runPool, hu, List.countP_cons, h1, h2]
  refine ⟨main.1, main.2, ?_⟩
  have := countP_split (fun u => isArchivedOutcome (beh u)) uids
  omega

/-- C5 (code_bug evaluation): when the candidate search raises before any
message was processed, the except handler of source lines 432-434 references
the still-unbound local archived and itself raises NameError, so the sweep
crashes without reporting any count; by contrast, an exception raised after
the worker loop is caught and the accumulated count is reported. -/
theorem c5_setup_failure_report_crash :
    archive_messages_with_label
      { selectInboxRaises := false, selectInboxOk := true, searchRaises := true,
        midLoopRaiseAfter := none, postLoopRaises := false }
      behAllOk [1, 2, 3] = SweepResult.nameErrorCrash ∧
    archive_messages_with_label
      { selectInboxRaises := true, selectInboxOk := true, searchRaises := false,
        midLoopRaiseAfter := none, postLoopRaises := false }
      behAllOk [1, 2, 3] = SweepResult.nameErrorCrash ∧
    archive_messages_with_label
      { selectInboxRaises := false, selectInboxOk := true, searchRaises := false,
        midLoopRaiseAfter := none, postLoopRaises := true }
      behAllOk [1, 2, 3] = SweepResult.abortedReported 3 := by
  decide

/-- C7 (code_bug evaluation): a run in which the canonical tag removal status
is not OK, verification therefore still sees the message in the inbox, and
the fallback UID MOVE succeeds.  The fallback is entered, runs in the single
attempt that then returns True, and the message is reported archived and
leaves the inbox (the Promo label survives) - but it ends NOT marked read:
the mark-read of source line 311 addresses the old All Mail UID 77 in the
uid space of the selected INBOX, where the moved message no longer resolves,
instead of the message at its archive-view identifier. -/
theorem c7_fallback_mark_read_misses :
    (process_single_message env7fb 5 "Promo" "[Gmail]/All Mail" "e" "p"
      server0).result = true ∧
    (process_single_message env7fb 5 "Promo" "[Gmail]/All Mail" "e" "p"
      server0).usedFallback = true ∧
    (process_single_message env7fb 5 "Promo" "[Gmail]/All Mail" "e" "p"
      server0).attempts = 1 ∧
    (process_single_message env7fb 5 "Promo" "[Gmail]/All Mail" "e" "p"
      server0).state =
      [{ inboxUid := 5, allMailUid := 77, msgid := some "m1",
         labels := ["Promo"], seen := false }] := by
  decide

/-- C6 counterexample: a folder listing whose only line carries the
provider-reported \All attribute flag.  Matching by that flag would return
the folder name [Gmail]/Alle Nachrichten that the line holds, but
find_all_mail_folder ignores attribute flags and, since none of its three
name substrings occurs, returns the hardcoded default instead. -/
theorem c6_attribute_flag_ignored :
    "\\All" ∈ folderAttrs g6 ∧
    extractFolderName g6 = "[Gmail]/Alle Nachrichten" ∧
    find_all_mail_folder (Except.ok [g6]) = "[Gmail]/All Mail" ∧
    find_all_mail_folder (Except.ok [g6]) ≠ extractFolderName g6 := by
  decide

/-- C6 amended: find_all_mail_folder is total and never fails, but its
matching consults no attribute flag: a listing failure yields the hardcoded
default, and otherwise the result is the extracted name of the first line in
which one of the three known localized name substrings occurs, or the
hardcoded default when no line matches. -/
theorem c6_substring_matching_total :
    find_all_mail_folder (Except.error ()) = "[Gmail]/All Mail" ∧
    ∀ folders : List String,
      match folders.find? matchesAllMail with
      | some d => find_all_mail_folder (Except.ok folders) = extractFolderName d
      | none => find_all_mail_folder (Except.ok folders) = "[Gmail]/All Mail" := by
  refine ⟨rfl, fun folders => ?_⟩
  unfold find_all_mail_folder
  cases h : folders.find? matchesAllMail <;> simp [h]

/-- C2 counterexample: a candidate message that the sweep selected with the
tag-and-location query label:Promo in:inbox.  In the attempt that archives
it, the verification search issued in the inbox view carries the
location-and-stable-identifier payload for Message-ID m1; the original
tag-and-location payload is issued nowhere in the attempt, and the two
payloads are different strings.  Verification therefore does not re-run the
query that originally selected the candidate. -/
theorem c2_verify_query_differs :
    Effect.search (verifyQuery "m1") ∈
      (attemptBody (mkEnv true false true) 5 "[Gmail]/All Mail" server0).trace ∧
    Effect.search (candidateQuery "Promo") ∉
      (attemptBody (mkEnv true false true) 5 "[Gmail]/All Mail" server0).trace ∧
    verifyQuery "m1" ≠ candidateQuery "Promo" := by
  decide

/-- C2 amended: in any attempt whose connection, selects, header fetch and
All Mail search all succeed on a message whose Message-ID is m, verification
is performed by issuing, in the inbox view, the query that combines the
inbox location with the stable identifier m, and (on the canonical path,
when the fallback was not entered) the attempt reports success exactly when
that query reports no remaining message. -/
theorem c2_verification_by_stable_id (tro vs mo : Bool) (uid : Nat)
    (f : String) (s : ServerState) (g : GMsg) (m : String) (u : Nat)
    (rest : List Nat)
    (hfi : findInbox s uid = some g) (hm : g.msgid = some m)
    (hu : allMailSearchMsgid s m = u :: rest) :
    Effect.search (verifyQuery m) ∈
      (attemptBody (mkEnv tro vs mo) uid f s).trace ∧
    ((attemptBody (mkEnv tro vs mo) uid f s).usedFallback = false →
      ((attemptBody (mkEnv tro vs mo) uid f s).exit = .ret true ↔
        verifyReported s tro vs m u = false)) := by
  unfold attemptBody mkEnv
  simp only [hfi, hm, hu]
  cases hrep : verifyReported s tro vs m u <;> cases mo <;>
    simp [hrep, List.mem_append]

/-- Witness for c2_verification_by_stable_id at the concrete account
server0, with all statuses OK. -/
theorem c2_verification_by_stable_id_witness :
    (findInbox server0 5 = some msgA ∧ msgA.msgid = some "m1" ∧
      allMailSearchMsgid server0 "m1" = 77 :: []) ∧
    (Effect.search (verifyQuery "m1") ∈
      (attemptBody (mkEnv true false true) 5 "[Gmail]/All Mail" server0).trace ∧
    ((attemptBody (mkEnv true false true) 5 "[Gmail]/All Mail"
        server0).usedFallback = false →
      ((attemptBody (mkEnv true false true) 5 "[Gmail]/All Mail"
          server0).exit = .ret true ↔
        verifyReported server0 true false "m1" 77 = false))) :=
  ⟨⟨by decide, by decide, by decide⟩,
    c2_verification_by_stable_id true false true 5 "[Gmail]/All Mail" server0
      msgA "m1" 77 [] (by decide) (by decide) (by decide)⟩

/-- Every path through one loop iteration ends in a return True or a
continue: no path completes the try statement normally, so the Python
control flow can never reach the trailing backoff code. -/
lemma attemptBody_exit_shape (e : AttemptEnv) (uid : Nat) (f : String)
    (s : ServerState) :
    (attemptBody e uid f s).exit = .ret true ∨
    (attemptBody e uid f s).exit = .cont := by
  unfold attemptBody
  repeat' split
  all_goals simp

/-- No single loop iteration emits a backoff sleep (the backoff is emitted,
if ever, by the loop wrapper between iterations). -/
lemma attemptBody_no_backoff (e : AttemptEnv) (uid : Nat) (f : String)
    (s : ServerState) :
    ((attemptBody e uid f s).trace.countP isBackoff) = 0 := by
  unfold attemptBody
  repeat' split
  all_goals simp [isBackoff, List.countP_cons, List.countP_append]

/-- In every loop iteration, the finally block balances the connections: the
trace holds exactly as many logouts as successful session opens. -/
lemma attemptBody_balance (e : AttemptEnv) (uid : Nat) (f : String)
    (s : ServerState) :
    ((attemptBody e uid f s).trace.countP isConnect) =
    ((attemptBody e uid f s).trace.countP isLogout) := by
  unfold attemptBody
  repeat' split
  all_goals simp [isConnect, isLogout, List.countP_cons, List.countP_append]

/-- The retry loop never emits a backoff sleep: the only exit kinds of an
iteration are return and continue, and a continue skips the trailing
backoff code. -/
lemma runAttempts_no_backoff (envs : Nat → AttemptEnv) (uid : Nat)
    (f : String) :
    ∀ (fuel i : Nat) (s : ServerState) (tr : List Effect) (n : Nat),
      tr.countP isBackoff = 0 →
      ((runAttempts envs uid f fuel i s tr n).trace.countP isBackoff) = 0 := by
  intro fuel
  induction fuel with
  | zero => intro i s tr n h; exact h
  | succ fuel ih =>
    intro i s tr n h
    have hshape := attemptBody_exit_shape (envs i) uid f s
    have hnb := attemptBody_no_backoff (envs i) uid f s
    rcases hx : attemptBody (envs i) uid f s with ⟨ex, st, atr, ufb⟩
    rw [hx] at hshape hnb
    simp only at hshape hnb
    unfold runAttempts
    rw [hx]
    cases ex with
    | ret b => simp [List.countP_append, h, hnb]
    | cont =>
      exact ih (i + 1) st (tr ++ atr) (n + 1)
        (by simp [List.countP_append, h, hnb])
    | fallthrough => rcases hshape with h1 | h1 <;> simp at h1

/-- The retry loop keeps the connection balance of its iterations. -/
lemma runAttempts_balance (envs : Nat → AttemptEnv) (uid : Nat)
    (f : String) :
    ∀ (fuel i : Nat) (s : ServerState) (tr : List Effect) (n : Nat),
      tr.countP isConnect = tr.countP isLogout →
      ((runAttempts envs uid f fuel i s tr n).trace.countP isConnect) =
      ((runAttempts envs uid f fuel i s tr n).trace.countP isLogout) := by
  intro fuel
  induction fuel with
  | zero => intro i s tr n h; exact h
  | succ fuel ih =>
    intro i s tr n h
    have hshape := attemptBody_exit_shape (envs i) uid f s
    have hb := attemptBody_balance (envs i) uid f s
    rcases hx : attemptBody (envs i) uid f s with ⟨ex, st, atr, ufb⟩
    rw [hx] at hshape hb
    simp only at hshape hb
    unfold runAttempts
    rw [hx]
    cases ex with
    | ret b => simp [List.countP_append, h, hb]
    | cont =>
      exact ih (i + 1) st (tr ++ atr) (n + 1)
        (by simp [List.countP_append, h, hb])
    | fallthrough => rcases hshape with h1 | h1 <;> simp at h1

/-- A run that returns False consumed its whole fuel: the only returning
exit of an iteration is return True, so a False result means every
iteration continued and the attempt counter advanced fuel times. -/
lemma runAttempts_false_attempts (envs : Nat → AttemptEnv) (uid : Nat)
    (f : String) :
    ∀ (fuel i : Nat) (s : ServerState) (tr : List Effect) (n : Nat),
      (runAttempts envs uid f fuel i s tr n).result = false →
      (runAttempts envs uid f fuel i s tr n).attempts = n + fuel := by
  intro fuel
  induction fuel with
  | zero => intro i s tr n _; rfl
  | succ fuel ih =>
    intro i s tr n h
    have hshape := attemptBody_exit_shape (envs i) uid f s
    rcases hx : attemptBody (envs i) uid f s with ⟨ex, st, atr, ufb⟩
    rw [hx] at hshape
    simp only at hshape
    unfold runAttempts at h ⊢
    rw [hx] at h ⊢
    cases ex with
    | ret b =>
      rcases hshape with h1 | h1
      · simp at h1
        subst h1
        simp at h
      · simp at h1
    | cont =>
      simp only at h ⊢
      rw [ih (i + 1) st (tr ++ atr) (n + 1) h]
      omega
    | fallthrough => rcases hshape with h1 | h1 <;> simp at h1

/-- C1 (code_bug evaluation): the backoff of source lines 329-331 is dead
code.  Every failure path of the loop body is a continue statement, which in
Python skips the trailing backoff sleep, so no run of process_single_message
ever sleeps 2 ** attempt between attempts; concretely, a message whose every
attempt fails is retried exactly the budget of 3 times but its effect trace
holds zero backoff sleeps instead of the documented 1, 2, 4 time units. -/
theorem c1_backoff_dead_code :
    (∀ (envs : Nat → AttemptEnv) (uid : Nat) (ln f em pw : String)
        (s : ServerState),
      ((process_single_message envs uid ln f em pw s).trace.countP isBackoff)
        = 0) ∧
    (process_single_message envFail 5 "Promo" "[Gmail]/All Mail" "e" "p"
      server0).result = false ∧
    (process_single_message envFail 5 "Promo" "[Gmail]/All Mail" "e" "p"
      server0).attempts = 3 := by
  refine ⟨fun envs uid ln f em pw s => ?_, by decide, by decide⟩
  exact runAttempts_no_backoff envs uid f 3 0 s [] 0 rfl

/-- C9: the retry budget of process_single_message is the local constant 3
of source line 245.  Whatever max_retries value the configuration loads
(its loader defaults it to 3), the run the sweep submits for a message is
byte-for-byte the same, and a message that ends unarchived was attempted
exactly 3 times. -/
theorem c9_retry_budget_constant (rb rr rr' : Option Nat) (em pw : String)
    (envs : Nat → AttemptEnv) (uid : Nat) (ln f : String) (s : ServerState) :
    (_load_config rb none em pw).max_retries = 3 ∧
    submit_process_single_message (_load_config rb rr em pw) envs uid ln f s =
      submit_process_single_message (_load_config rb rr' em pw) envs uid ln f s ∧
    ((submit_process_single_message (_load_config rb rr em pw) envs uid ln f
        s).result = false →
      (submit_process_single_message (_load_config rb rr em pw) envs uid ln f
        s).attempts = 3) := by
  refine ⟨rfl, rfl, fun h => ?_⟩
  exact runAttempts_false_attempts envs uid f 3 0 s [] 0 h

/-- Witness for c9_retry_budget_constant: with max_retries configured to 7
and every attempt failing, the run still makes exactly 3 attempts. -/
theorem c9_retry_budget_constant_witness :
    (submit_process_single_message (_load_config none (some 7) "e" "p")
      envFail 5 "Promo" "[Gmail]/All Mail" server0).result = false ∧
    (submit_process_single_message (_load_config none (some 7) "e" "p")
      envFail 5 "Promo" "[Gmail]/All Mail" server0).attempts = 3 :=
  ⟨by decide,
    (c9_retry_budget_constant none (some 7) (some 7) "e" "p" envFail 5
      "Promo" "[Gmail]/All Mail" server0).2.2 (by decide)⟩

/-- C10: the parallel archival phase leaves the orchestrator, and in
particular its shared connection field self.imap, untouched - the embedding
of process_single_message takes no orchestrator argument at all because its
source never names self.imap - and every run of process_single_message
closes exactly the connections it opened: its trace holds as many logouts as
successful session opens, whatever the injected per-attempt failures, so all
per-attempt connections are released and the shared connection stays usable
for the secondary pass. -/
theorem c10_self_imap_frame :
    (∀ (a : Archiver) (beh : Nat → Outcome) (uids : List Nat),
      (parallelPhase a beh uids).1 = a) ∧
    (∀ (envs : Nat → AttemptEnv) (uid : Nat) (ln f em pw : String)
        (s : ServerState),
      ((process_single_message envs uid ln f em pw s).trace.countP isConnect)
        = ((process_single_message envs uid ln f em pw s).trace.countP
            isLogout)) := by
  refine ⟨fun a beh uids => rfl, fun envs uid ln f em pw s => ?_⟩
  exact runAttempts_balance envs uid f 3 0 s [] 0 rfl

/-- The message-by-message preservation relation for one label L: the run
keeps the account at the same length, and every message that carried L
before still carries L after. -/
def LabelsPreserved (L : String) (s t : ServerState) : Prop :=
  t.length = s.length ∧
  ∀ (i : Nat) (h : i < s.length) (h' : i < t.length),
    L ∈ (s.get ⟨i, h⟩).labels → L ∈ (t.get ⟨i, h'⟩).labels

lemma lp_refl (L : String) (s : ServerState) : LabelsPreserved L s s :=
  ⟨rfl, fun _ _ _ hm => hm⟩

lemma lp_trans {L : String} {s t u : ServerState}
    (h1 : LabelsPreserved L s t) (h2 : LabelsPreserved L t u) :
    LabelsPreserved L s u := by
  obtain ⟨hl1, hp1⟩ := h1
  obtain ⟨hl2, hp2⟩ := h2
  refine ⟨hl2.trans hl1, fun i h h' hm => ?_⟩
  have ht : i < t.length := by omega
  exact hp2 i ht h' (hp1 i h ht hm)

/-- Every per-message server command is a map over the account; mapping a
function that keeps L on every message keeps L message by message. -/
lemma lp_map (L : String) (s : ServerState) (f : GMsg → GMsg)
    (hf : ∀ g, L ∈ g.labels → L ∈ (f g).labels) :
    LabelsPreserved L s (s.map f) := by
  refine ⟨List.length_map s f, fun i h h' hm => ?_⟩
  have : (s.map f).get ⟨i, h'⟩ = f (s.get ⟨i, h⟩) := by
    simp [List.get_eq_getElem, List.getElem_map]
  rw [this]
  exact hf _ hm

/-- Removing the inbox-presence label keeps every other label. -/
lemma labelKeep_mem (L : String) (hL : L ≠ inboxLabel) (g : GMsg)
    (hm : L ∈ g.labels) : L ∈ (labelKeep g).labels := by
  simp [labelKeep, List.mem_filter, hm, bne_iff_ne, hL]

lemma lp_storeRemove (L : String) (hL : L ≠ inboxLabel) (s : ServerState)
    (u : Nat) : LabelsPreserved L s (storeRemoveInboxAll s u) := by
  unfold storeRemoveInboxAll
  apply lp_map
  intro g hm
  split
  · exact labelKeep_mem L hL g hm
  · exact hm

lemma lp_seenAll (L : String) (s : ServerState) (u : Nat) :
    LabelsPreserved L s (storeSeenAllMail s u) := by
  unfold storeSeenAllMail
  apply lp_map
  intro g hm
  split <;> simpa

lemma lp_seenInbox (L : String) (s : ServerState) (u : Nat) :
    LabelsPreserved L s (storeSeenInboxSpace s u) := by
  unfold storeSeenInboxSpace
  apply lp_map
  intro g hm
  split <;> simpa

lemma lp_move (L : String) (hL : L ≠ inboxLabel) (s : ServerState)
    (u : Nat) : LabelsPreserved L s (moveFromInbox s u) := by
  unfold moveFromInbox
  apply lp_map
  intro g hm
  split
  · exact labelKeep_mem L hL g hm
  · exact hm

lemma lp_postStore (L : String) (hL : L ≠ inboxLabel) (s : ServerState)
    (tro : Bool) (u : Nat) : LabelsPreserved L s (postStoreState s tro u) := by
  unfold postStoreState
  split
  · exact lp_trans (lp_storeRemove L hL s u) (lp_seenAll L _ u)
  · exact lp_refl L s

/-- No path through one loop iteration removes any label other than the
inbox-presence label from any message. -/
lemma attemptBody_labels (L : String) (hL : L ≠ inboxLabel) (e : AttemptEnv)
    (uid : Nat) (f : String) (s : ServerState) :
    LabelsPreserved L s (attemptBody e uid f s).state := by
  unfold attemptBody
  repeat' split
  all_goals first
    | exact lp_refl L s
    | exact lp_postStore L hL s _ _
    | exact lp_trans
        (lp_trans (lp_postStore L hL s _ _) (lp_move L hL _ _))
        (lp_seenInbox L _ _)

/-- The retry loop preserves every label other than the inbox-presence
label across all its iterations. -/
lemma runAttempts_labels (L : String) (hL : L ≠ inboxLabel)
    (envs : Nat → AttemptEnv) (uid : Nat) (f : String) :
    ∀ (fuel i : Nat) (s : ServerState) (tr : List Effect) (n : Nat),
      LabelsPreserved L s (runAttempts envs uid f fuel i s tr n).state := by
  intro fuel
  induction fuel with
  | zero => intro i s tr n; exact lp_refl L s
  | succ fuel ih =>
    intro i s tr n
    have hbody := attemptBody_labels L hL (envs i) uid f s
    rcases hx : attemptBody (envs i) uid f s with ⟨ex, st, atr, ufb⟩
    rw [hx] at hbody
    simp only at hbody
    unfold runAttempts
    rw [hx]
    cases ex with
    | ret b => exact hbody
    | cont => exact lp_trans hbody (ih (i + 1) st (tr ++ atr) (n + 1))
    | fallthrough =>
      exact lp_trans hbody (ih (i + 1) st _ (n + 1))

/-- C3: archival never removes the user classification tag.  For every
injected server behavior, every account, every message and every label L
other than the inbox-presence label, a full run of process_single_message
leaves the account with the same messages, and every message that carried L
before the run still carries L after it - on the canonical tag-removal path,
on the relocation fallback, and on every failure path alike. -/
theorem c3_classification_label_preserved (envs : Nat → AttemptEnv)
    (uid : Nat) (ln f em pw : String) (s : ServerState) (L : String)
    (hL : L ≠ inboxLabel) :
    LabelsPreserved L s (process_single_message envs uid ln f em pw s).state :=
  runAttempts_labels L hL envs uid f 3 0 s [] 0

/-- Witness for c3_classification_label_preserved: the classification tag
Promo on the concrete account survives a run that exercises the relocation
fallback. -/
theorem c3_classification_label_preserved_witness :
    "Promo" ≠ inboxLabel ∧
    LabelsPreserved "Promo" server0
      (process_single_message env7fb 5 "Promo" "[Gmail]/All Mail" "e" "p"
        server0).state :=
  ⟨by decide,
    c3_classification_label_preserved env7fb 5 "Promo" "[Gmail]/All Mail"
      "e" "p" server0 "Promo" (by decide)⟩

/-- Removing the inbox label and marking read at one All Mail UID is
idempotent on the account state: both server commands are set-style updates
(filter out one label, set one flag) that reach a fixed point after one
application. -/
lemma postStore_idem (s : ServerState) (u : Nat) :
    postStoreState (postStoreState s true u) true u =
      postStoreState s true u := by
  unfold postStoreState storeSeenAllMail storeRemoveInboxAll
  simp only [if_pos, List.map_map]
  apply List.map_congr_left
  intro g _
  by_cases h : (g.allMailUid == u) = true <;>
    simp [h, labelKeep, Function.comp, List.filter_filter]

/-- After the canonical mutation pair at the All Mail UID of a message with
Message-ID m, no message with Message-ID m remains in the inbox view,
provided m resolves only to that UID in the account. -/
lemma inboxHasMsgid_after (s : ServerState) (u : Nat) (m : String)
    (hu : ∀ g ∈ s, g.msgid = some m → g.allMailUid = u) :
    inboxHasMsgid (postStoreState s true u) m = false := by
  have hps : postStoreState s true u =
      storeSeenAllMail (storeRemoveInboxAll s u) u := rfl
  rw [hps]
  unfold inboxHasMsgid storeSeenAllMail storeRemoveInboxAll
  rw [List.map_map, List.any_map]
  rw [List.any_eq_false]
  intro g hg
  by_cases hau : g.allMailUid = u
  · simp [Function.comp, hau, labelKeep]
  · have hmid : ¬g.msgid = some m := fun hc => hau (hu g hg hc)
    simp [Function.comp, hau, hmid]

/-- The end state the Archive Mutator leaves at its All Mail UID: the inbox
label is gone and the message is marked read. -/
lemma archiveMutator_end (s : ServerState) (m : String) (u : Nat) :
    ∀ g ∈ (archiveMutator s m u).2, g.allMailUid = u →
      inboxLabel ∉ g.labels ∧ g.seen = true := by
  show ∀ g ∈ postStoreState s true u, _
  unfold postStoreState storeSeenAllMail storeRemoveInboxAll
  simp only [if_pos, List.map_map]
  intro g' hmem hau
  obtain ⟨g, hg, rfl⟩ := List.mem_map.1 hmem
  by_cases h : (g.allMailUid == u) = true
  · simp [Function.comp, h, labelKeep, List.mem_filter]
  · exfalso
    simp [Function.comp, h] at hau
    simp [hau] at h

/-- C8: the Archive Mutator is idempotent.  When the Message-ID resolves
only to the given All Mail UID, running the mutation sequence (remove the
inbox label, mark read, verify in the inbox view) twice leaves exactly the
account state of running it once - the second pass has no further mutating
effect - the second invocation reports success, and the end state at that
UID has the inbox label absent and the message marked read. -/
theorem c8_mutator_idempotent (s : ServerState) (m : String) (u : Nat)
    (hu : ∀ g ∈ s, g.msgid = some m → g.allMailUid = u) :
    (archiveMutator (archiveMutator s m u).2 m u).2 =
      (archiveMutator s m u).2 ∧
    (archiveMutator (archiveMutator s m u).2 m u).1 = true ∧
    ∀ g ∈ (archiveMutator s m u).2, g.allMailUid = u →
      inboxLabel ∉ g.labels ∧ g.seen = true := by
  refine ⟨?_, ?_, archiveMutator_end s m u⟩
  · show postStoreState (postStoreState s true u) true u =
      postStoreState s true u
    exact postStore_idem s u
  · show (!(inboxHasMsgid (postStoreState (postStoreState s true u) true u)
      m)) = true
    rw [postStore_idem, inboxHasMsgid_after s u m hu]
    rfl

/-- Witness for c8_mutator_idempotent on the concrete account server0. -/
theorem c8_mutator_idempotent_witness :
    (∀ g ∈ server0, g.msgid = some "m1" → g.allMailUid = 77) ∧
    ((archiveMutator (archiveMutator server0 "m1" 77).2 "m1" 77).2 =
      (archiveMutator server0 "m1" 77).2 ∧
    (archiveMutator (archiveMutator server0 "m1" 77).2 "m1" 77).1 = true ∧
    ∀ g ∈ (archiveMutator server0 "m1" 77).2, g.allMailUid = 77 →
      inboxLabel ∉ g.labels ∧ g.seen = true) :=
  ⟨by decide, c8_mutator_idempotent server0 "m1" 77 (by decide)⟩

end LabelArchiver
